import Mathlib

/-!
# Verification of the legit-city server (server.js)

A shallow embedding of the Express/MySQL server in `server.js`:
request-body fields are modelled as JavaScript values (`JVal`) so that
truthiness checks (`!x`) are faithful, the six database tables are lists
of rows in a `State`, and each route handler is a pure function from the
request and the state to a response and a new state.  External effects
(bcrypt hashing/compare, the exchange-rate HTTP call, `Date.now()`,
AUTO_INCREMENT ids) are passed in explicitly.  Numbers are rationals;
IEEE-754 rounding noise is outside the model, and `Number.toFixed(2)`
followed by `Number(...)` is modelled as exact round-half-up at two
decimal places.
-/

namespace LegitCity

/-- A JavaScript value as it can appear in a parsed JSON request body or
a database cell: `undefined`, `null`, a boolean, a number, or a string.
Objects and arrays do not occur in the fields the server reads. -/
inductive JVal where
  | vUndef
  | vNull
  | vBool (b : Bool)
  | vNum (q : ℚ)
  | vStr (s : String)
deriving DecidableEq, Repr

namespace JVal

/-- JavaScript truthiness: `undefined`, `null`, `false`, `0` and `""` are
falsy, everything else modelled here is truthy.  (`NaN`, also falsy, has
no rational representative and does not arise in the model.) -/
def truthy : JVal → Bool
  | vUndef => false
  | vNull => false
  | vBool b => b
  | vNum q => decide (q ≠ 0)
  | vStr s => decide (s ≠ "")

end JVal

/-- Digits of a decimal literal read as a natural number. -/
def digitsToNat (cs : List Char) : ℕ :=
  cs.foldl (fun a c => a * 10 + (c.toNat - 48)) 0

/-- JavaScript `Number(string)` on the decimal fragment it accepts:
trimmed, optional sign, integer digits, optional fraction.  The empty
(trimmed) string converts to `0`.  Strings outside this fragment give
`NaN` in JavaScript, which has no rational representative; they are
mapped to `none`. -/
def parseDecString (s : String) : Option ℚ :=
  match s.trim.data with
  | [] => some 0
  | cs =>
    let (sign, rest) : ℚ × List Char :=
      match cs with
      | '-' :: r => (-1, r)
      | '+' :: r => (1, r)
      | r => (1, r)
    let intPart := rest.takeWhile Char.isDigit
    let rest2 := rest.dropWhile Char.isDigit
    match rest2 with
    | [] =>
      if intPart.isEmpty then none
      else some (sign * (digitsToNat intPart : ℚ))
    | '.' :: fr =>
      let fracPart := fr.takeWhile Char.isDigit
      let rest3 := fr.dropWhile Char.isDigit
      if rest3.isEmpty && !(intPart.isEmpty && fracPart.isEmpty) then
        some (sign * ((digitsToNat intPart : ℚ) +
          (digitsToNat fracPart : ℚ) / (10 ^ fracPart.length)))
      else none
    | _ => none

/-- JavaScript `Number(x)` coercion restricted to the values of the model
(`NaN` results are mapped to `0`; no verified claim depends on them). -/
def JVal.toNum : JVal → ℚ
  | .vUndef => 0
  | .vNull => 0
  | .vBool b => if b then 1 else 0
  | .vNum q => q
  | .vStr s => (parseDecString s).getD 0

/-- `Number(x.toFixed(2))`: round half-up to two decimal places. -/
def toFixed2 (x : ℚ) : ℚ :=
  (⌊x * 100 + 1 / 2⌋ : ℚ) / 100

/-! ## Currency rate lookup (`getRate`) -/

/-- `const BASE_CURRENCY = 'USD'`. -/
def BASE_CURRENCY : String := "USD"

/-- `String.prototype.toUpperCase()` on the ASCII fragment relevant to
currency codes (`Char.toUpper` uppercases exactly `a`–`z`). -/
def toUpperStr (s : String) : String :=
  String.mk (s.data.map Char.toUpper)

/-- Outcome of the `axios.get` call to the exchange-rate service:
either the request/parse throws, or it yields a body whose optional
`rates` object is a partial map from currency code to rate. -/
inductive ExtCall where
  | failure
  | success (rates : Option (String → Option ℚ))

/-- `getRate(toCurrency)` from server.js:
returns `1` if `toCurrency` is falsy or uppercases to the base currency;
otherwise reads `data?.rates?.[toCurrency.toUpperCase()] || 1` from the
external call, and returns `1` from the `catch` on any failure. -/
def getRate (toCurrency : Option String) (ext : ExtCall) : ℚ :=
  match toCurrency with
  | none => 1
  | some tc =>
    if tc = "" then 1
    else if toUpperStr tc = BASE_CURRENCY then 1
    else
      match ext with
      | .failure => 1
      | .success none => 1
      | .success (some rates) =>
        match rates (toUpperStr tc) with
        | none => 1
        | some r => if r = 0 then 1 else r

/-! ## Database rows and store state -/

/-- A row of `users`.  `password` holds the bcrypt hash string the handler
stored; `id` models the AUTO_INCREMENT primary key. -/
structure UserRow where
  id : ℕ
  name : JVal
  email : JVal
  password : String
  account_type : JVal
  verified : ℕ
  subscription_expires_at : Option String
deriving DecidableEq, Repr

/-- A row of `plans` (`active` is the 0/1 flag, `created_at` a timestamp). -/
structure PlanRow where
  id : ℕ
  admin_id : JVal
  name : JVal
  description : JVal
  price_usd : JVal
  duration_days : JVal
  active : Bool
  created_at : ℕ
deriving DecidableEq, Repr

/-- A row of `services`. -/
structure ServiceRow where
  id : ℕ
  service : JVal
  level : JVal
  admin_id : JVal
  created_at : ℕ
deriving DecidableEq, Repr

/-- A row of `announcements`. -/
structure AnnouncementRow where
  id : ℕ
  title : JVal
  content : JVal
  admin_id : JVal
  created_at : ℕ
deriving DecidableEq, Repr

/-- A row of `work`; `file_path` stores the generated filename or NULL. -/
structure WorkRow where
  id : ℕ
  title : JVal
  description : JVal
  file_path : Option String
  admin_id : JVal
  created_at : ℕ
deriving DecidableEq, Repr

/-- A row of `subscriptions`: exactly one of the two targets is set by the
handler, the other column stays NULL. -/
structure SubscriptionRow where
  user_id : JVal
  service_id : Option JVal
  plan_id : Option JVal
deriving DecidableEq, Repr

/-- The six tables of the `legit_city` database, each in insertion order. -/
structure State where
  users : List UserRow
  plans : List PlanRow
  services : List ServiceRow
  announcements : List AnnouncementRow
  work : List WorkRow
  subscriptions : List SubscriptionRow
deriving DecidableEq, Repr

/-- Insert into a list sorted by descending key, keeping it sorted. -/
def insertByDesc {α : Type} (key : α → ℕ) (x : α) : List α → List α
  | [] => [x]
  | y :: ys => if key y ≤ key x then x :: y :: ys else y :: insertByDesc key x ys

/-- `ORDER BY key DESC`: a deterministic insertion sort by descending key,
modelling the order in which MySQL returns the rows. -/
def sortByDesc {α : Type} (key : α → ℕ) : List α → List α
  | [] => []
  | x :: xs => insertByDesc key x (sortByDesc key xs)

/-- `LEFT JOIN users u ON t.admin_id = u.id` projected to `u.name`:
the name of the first user whose id matches, or NULL when none does. -/
def adminName (users : List UserRow) (adminId : JVal) : Option JVal :=
  (users.find? (fun u => decide (JVal.vNum (u.id : ℚ) = adminId))).map (fun u => u.name)

/-! ## Authentication handlers -/

/-- Response of `POST /register`: 400 with a message, or 201
`{success:true, message:'Registration successful'}` — the success body
carries no session and no token.  (The 500 path for store failures other
than the duplicate key is outside the model.) -/
inductive RegisterResp where
  | badRequest (msg : String)
  | created
deriving DecidableEq, Repr

/-- `POST /register` from server.js.  `hash` models `bcrypt.hash(·, 10)`.
The duplicate-email branch models the unique key on `users.email`: the
INSERT raises ER_DUP_ENTRY, which the catch maps to a 400. -/
def register (hash : JVal → String) (name email password accountType : JVal)
    (st : State) : RegisterResp × State :=
  if !name.truthy || !email.truthy || !password.truthy || !accountType.truthy then
    (.badRequest "All fields are required", st)
  else if st.users.any (fun u => decide (u.email = email)) then
    (.badRequest "Email already registered", st)
  else
    (.created,
      { st with users := st.users ++
          [{ id := st.users.length, name := name, email := email,
             password := hash password, account_type := accountType,
             verified := 0, subscription_expires_at := none }] })

/-- `SELECT * FROM users WHERE email = ?` followed by `rows[0]`. -/
def findUserByEmail (st : State) (email : JVal) : Option UserRow :=
  st.users.find? (fun u => decide (u.email = email))

/-- Response of `POST /login`.  The `ok` constructor carries the redirect
target (dashboard path plus the `name` and `id` query parameters, kept
as fields; percent-encoding of the final URL string is presentation
only) and the public user fields. -/
inductive LoginResp where
  | badRequest (msg : String)
  | unauthorized (msg : String)
  | ok (redirectPath : String) (redirectName : JVal) (redirectId : ℕ)
      (id : ℕ) (name : JVal) (email : JVal) (accountType : JVal)
      (verified : ℕ) (subscription_expires_at : Option String)
deriving DecidableEq, Repr

/-- `POST /login` from server.js.  `cmp` models
`bcrypt.compare(password, user.password)`. -/
def login (cmp : JVal → String → Bool) (email password : JVal) (st : State) :
    LoginResp :=
  if !email.truthy || !password.truthy then
    .badRequest "Email and password required"
  else
    match findUserByEmail st email with
    | none => .unauthorized "Invalid credentials"
    | some user =>
      if !cmp password user.password then .unauthorized "Invalid credentials"
      else
        .ok (if user.account_type = JVal.vStr "admin" then "/admin-dashboard"
             else "/user-dashboard")
          user.name user.id
          user.id user.name user.email user.account_type
          user.verified user.subscription_expires_at

/-! ## Plan handlers -/

/-- Response of `POST /api/plans`: 400 or `{success, message, planId}`. -/
inductive PlanCreateResp where
  | badRequest (msg : String)
  | ok (planId : ℕ)
deriving DecidableEq, Repr

/-- `POST /api/plans` from server.js: required fields checked by
truthiness, `description || ''`, inserted with `active = 1`. -/
def createPlan (adminId name description price duration : JVal) (now : ℕ)
    (st : State) : PlanCreateResp × State :=
  if !adminId.truthy || !name.truthy || !price.truthy || !duration.truthy then
    (.badRequest "adminId, name, price and duration are required", st)
  else
    (.ok st.plans.length,
      { st with plans := st.plans ++
          [{ id := st.plans.length, admin_id := adminId, name := name,
             description := if description.truthy then description else JVal.vStr "",
             price_usd := price, duration_days := duration,
             active := true, created_at := now }] })

/-- One element of the `plans` array in the `GET /api/plans` response. -/
structure PlanOut where
  id : ℕ
  admin_id : JVal
  admin_name : Option JVal
  name : JVal
  description : JVal
  price_usd : ℚ
  duration_days : JVal
  currency : String
  price_local : ℚ
  created_at : ℕ
deriving DecidableEq, Repr

/-- The `GET /api/plans` 200 response body. -/
structure PlansResp where
  plans : List PlanOut
  base : String
  currency : String
  rate : ℚ
deriving Repr

/-- `(req.query.currency || BASE_CURRENCY).toUpperCase()`: the effective
currency of a plan listing (`req.query.currency` is `undefined` or a
string, and the empty string is falsy). -/
def effCurrency (currencyQ : Option String) : String :=
  toUpperStr (match currencyQ with
    | none => BASE_CURRENCY
    | some s => if s = "" then BASE_CURRENCY else s)

/-- `GET /api/plans` from server.js: effective currency is
`(req.query.currency || 'USD').toUpperCase()`; active plans newest
first, left-joined with the owner's name; `price_local` is
`Number((Number(p.price_usd) * rate).toFixed(2))`. -/
def listPlans (currencyQ : Option String) (ext : ExtCall) (st : State) :
    PlansResp :=
  let currency := effCurrency currencyQ
  let rows := sortByDesc (fun p => p.created_at)
    (st.plans.filter (fun p => p.active))
  let rate := getRate (some currency) ext
  { plans := rows.map (fun p =>
      { id := p.id, admin_id := p.admin_id,
        admin_name := adminName st.users p.admin_id,
        name := p.name, description := p.description,
        price_usd := p.price_usd.toNum,
        duration_days := p.duration_days,
        currency := currency,
        price_local := toFixed2 (p.price_usd.toNum * rate),
        created_at := p.created_at }),
    base := BASE_CURRENCY, currency := currency, rate := rate }

/-! ## Subscribe, service, announcement and work handlers -/

/-- Plain `{success, message}` / 400 response shape shared by the
subscribe, service-, announcement- and work-creation endpoints. -/
inductive SimpleResp where
  | badRequest (msg : String)
  | ok (msg : String)
deriving DecidableEq, Repr

/-- `POST /subscribe` from server.js: validation by truthiness, then the
service branch wins over the plan branch; the final 400 of the source is
kept although the guard makes it unreachable. -/
def subscribe (userId serviceId planId : JVal) (st : State) :
    SimpleResp × State :=
  if !userId.truthy || (!serviceId.truthy && !planId.truthy) then
    (.badRequest "userId and serviceId or planId required", st)
  else if serviceId.truthy then
    (.ok "Subscribed to service",
      { st with subscriptions := st.subscriptions ++
          [{ user_id := userId, service_id := some serviceId, plan_id := none }] })
  else if planId.truthy then
    (.ok "Subscribed to plan",
      { st with subscriptions := st.subscriptions ++
          [{ user_id := userId, service_id := none, plan_id := some planId }] })
  else
    (.badRequest "Invalid subscription request", st)

/-- `POST /api/services` from server.js. -/
def createService (service level adminId : JVal) (now : ℕ) (st : State) :
    SimpleResp × State :=
  if !service.truthy || !level.truthy || !adminId.truthy then
    (.badRequest "All fields required", st)
  else
    (.ok "Service created",
      { st with services := st.services ++
          [{ id := st.services.length, service := service, level := level,
             admin_id := adminId, created_at := now }] })

/-- A row of the rich `GET /api/services` listing. -/
structure ServiceRichOut where
  id : ℕ
  service : JVal
  level : JVal
  admin_id : JVal
  admin_name : Option JVal
  created_at : ℕ
deriving DecidableEq, Repr

/-- A row of the legacy `GET /services` listing. -/
structure ServiceLegacyOut where
  id : ℕ
  service : JVal
  level : JVal
  admin_id : JVal
deriving DecidableEq, Repr

/-- `GET /api/services`: joined with the admin's name, newest first. -/
def listServicesRich (st : State) : List ServiceRichOut :=
  (sortByDesc (fun s => s.created_at) st.services).map (fun s =>
    { id := s.id, service := s.service, level := s.level,
      admin_id := s.admin_id, admin_name := adminName st.users s.admin_id,
      created_at := s.created_at })

/-- `GET /services`: minimal projection, newest first. -/
def listServicesLegacy (st : State) : List ServiceLegacyOut :=
  (sortByDesc (fun s => s.created_at) st.services).map (fun s =>
    { id := s.id, service := s.service, level := s.level,
      admin_id := s.admin_id })

/-- `POST /api/announcements` from server.js: `title || ''`. -/
def createAnnouncement (title content adminId : JVal) (now : ℕ) (st : State) :
    SimpleResp × State :=
  if !content.truthy || !adminId.truthy then
    (.badRequest "content and adminId required", st)
  else
    (.ok "Announcement created",
      { st with announcements := st.announcements ++
          [{ id := st.announcements.length,
             title := if title.truthy then title else JVal.vStr "",
             content := content, admin_id := adminId, created_at := now }] })

/-- A row of the rich `GET /api/announcements` listing. -/
structure AnnouncementRichOut where
  id : ℕ
  title : JVal
  content : JVal
  created_at : ℕ
  admin_name : Option JVal
deriving DecidableEq, Repr

/-- A row of the legacy `GET /announcements` listing. -/
structure AnnouncementLegacyOut where
  id : ℕ
  title : JVal
  content : JVal
  created_at : ℕ
deriving DecidableEq, Repr

/-- `GET /api/announcements`: joined with the admin's name, newest first. -/
def listAnnouncementsRich (st : State) : List AnnouncementRichOut :=
  (sortByDesc (fun a => a.created_at) st.announcements).map (fun a =>
    { id := a.id, title := a.title, content := a.content,
      created_at := a.created_at,
      admin_name := adminName st.users a.admin_id })

/-- `GET /announcements`: no join, newest first. -/
def listAnnouncementsLegacy (st : State) : List AnnouncementLegacyOut :=
  (sortByDesc (fun a => a.created_at) st.announcements).map (fun a =>
    { id := a.id, title := a.title, content := a.content,
      created_at := a.created_at })

/-! ## Work uploads -/

/-- JavaScript `\s` (the regex whitespace class). -/
def isJsWS (c : Char) : Bool :=
  c = ' ' || c = '\t' || c = '\n' || c = '\r' || c = '\x0b' || c = '\x0c' ||
  c = '\u00a0' || c = '\u1680' || ('\u2000' ≤ c && c ≤ '\u200a') ||
  c = '\u2028' || c = '\u2029' || c = '\u202f' || c = '\u205f' ||
  c = '\u3000' || c = '\ufeff'

/-- `replace(/\s+/g, '_')` over a character list: each maximal run of
whitespace becomes a single underscore.  The flag records whether the
previous character belonged to a whitespace run. -/
def squashWSAux : List Char → Bool → List Char
  | [], _ => []
  | c :: rest, prevWS =>
    if isJsWS c then
      if prevWS then squashWSAux rest true
      else '_' :: squashWSAux rest true
    else c :: squashWSAux rest false

/-- `originalname.replace(/\s+/g, '_')`. -/
def sanitizeWS (s : String) : String :=
  String.mk (squashWSAux s.data false)

/-- The multer `filename` callback:
`` `${Date.now()}-${file.originalname.replace(/\s+/g, '_')}` ``. -/
def genFilename (now : ℕ) (original : String) : String :=
  toString now ++ "-" ++ sanitizeWS original

/-- The uploaded file as multer presents it to the handler. -/
structure FileUpload where
  originalname : String
deriving DecidableEq, Repr

/-- `POST /api/work` from server.js:
`req.file ? req.file.filename : null` becomes the stored `file_path`. -/
def uploadWork (title description adminId : JVal) (file : Option FileUpload)
    (now : ℕ) (st : State) : SimpleResp × State :=
  if !title.truthy || !description.truthy || !adminId.truthy then
    (.badRequest "title, description and adminId required", st)
  else
    (.ok "Work uploaded",
      { st with work := st.work ++
          [{ id := st.work.length, title := title, description := description,
             file_path := file.map (fun f => genFilename now f.originalname),
             admin_id := adminId, created_at := now }] })

/-- A row of the `GET /api/work` listing. -/
structure WorkOut where
  id : ℕ
  title : JVal
  description : JVal
  file_path : Option String
  created_at : ℕ
  admin_name : Option JVal
deriving DecidableEq, Repr

/-- `GET /api/work`: joined with the admin's name, newest first. -/
def listWork (st : State) : List WorkOut :=
  (sortByDesc (fun w => w.created_at) st.work).map (fun w =>
    { id := w.id, title := w.title, description := w.description,
      file_path := w.file_path, created_at := w.created_at,
      admin_name := adminName st.users w.admin_id })

/-! ## The whole HTTP surface as one step function -/

/-- One request to the HTTP surface, with the external effects each
handler consumes (`hash`, `cmp`, the rate call, `Date.now()`) carried as
data.  The three static-file routes touch no table and are omitted. -/
inductive Req where
  | register (hash : JVal → String) (name email password accountType : JVal)
  | login (cmp : JVal → String → Bool) (email password : JVal)
  | createPlan (adminId name description price duration : JVal) (now : ℕ)
  | listPlans (currencyQ : Option String) (ext : ExtCall)
  | subscribe (userId serviceId planId : JVal)
  | createService (service level adminId : JVal) (now : ℕ)
  | listServices
  | listServicesLegacy
  | createAnnouncement (title content adminId : JVal) (now : ℕ)
  | listAnnouncements
  | listAnnouncementsLegacy
  | uploadWork (title description adminId : JVal) (file : Option FileUpload) (now : ℕ)
  | listWork

/-- The state transition each request performs on the store (the GET
routes read but never write). -/
def step : Req → State → State
  | .register h n e p a, st => (register h n e p a st).2
  | .login _ _ _, st => st
  | .createPlan a n d p du now, st => (createPlan a n d p du now st).2
  | .listPlans _ _, st => st
  | .subscribe u s p, st => (subscribe u s p st).2
  | .createService s l a now, st => (createService s l a now st).2
  | .listServices, st => st
  | .listServicesLegacy, st => st
  | .createAnnouncement t c a now, st => (createAnnouncement t c a now st).2
  | .listAnnouncements, st => st
  | .listAnnouncementsLegacy, st => st
  | .uploadWork t d a f now, st => (uploadWork t d a f now st).2
  | .listWork, st => st

/-- The second store extends the first by appended rows only: every row
present before is still present, unchanged and in its place. -/
def InsertOnly (st stNew : State) : Prop :=
  ∃ us ps ss ans ws sbs,
    stNew.users = st.users ++ us ∧
    stNew.plans = st.plans ++ ps ∧
    stNew.services = st.services ++ ss ∧
    stNew.announcements = st.announcements ++ ans ∧
    stNew.work = st.work ++ ws ∧
    stNew.subscriptions = st.subscriptions ++ sbs

/-! ## Helper lemmas -/

/-- When the external call throws, `getRate` always lands in a branch
returning 1. -/
lemma getRate_of_failure (tc : Option String) : getRate tc ExtCall.failure = 1 := by
  cases tc with
  | none => rfl
  | some s =>
    simp only [getRate]
    split_ifs <;> rfl

/-- When the target uppercases to the base currency, `getRate` returns 1
whatever the external call would have produced. -/
lemma getRate_of_base (s : String) (ext : ExtCall) (h : toUpperStr s = BASE_CURRENCY) :
    getRate (some s) ext = 1 := by
  unfold getRate
  by_cases hs : s = "" <;> simp [hs, h]

/-! ## The claims -/

/-- C2: `getRate` returns exactly 1 when the target currency is absent,
empty (falsy) or uppercases to the base currency USD, and returns 1 on
any failure of the external rate service without propagating the error;
consequently every plan listing still produces its 200 response when the
remote service is unreachable, with `rate` reported as 1 (the listing is
a total function of the store in this model, so the only content of the
fail-open property is the reported rate). -/
theorem getRate_fail_open :
    (∀ ext, getRate none ext = 1) ∧
    (∀ ext, getRate (some "") ext = 1) ∧
    (∀ s ext, toUpperStr s = BASE_CURRENCY → getRate (some s) ext = 1) ∧
    (∀ tc, getRate tc ExtCall.failure = 1) ∧
    (∀ cq st, (listPlans cq ExtCall.failure st).rate = 1) := by
  refine ⟨fun ext => rfl, fun ext => by unfold getRate; simp,
    getRate_of_base, getRate_of_failure, fun cq st => ?_⟩
  show getRate (some (effCurrency cq)) ExtCall.failure = 1
  exact getRate_of_failure _

/-- Witness for C2: the base currency written in lower case, and a plan
listing against an unreachable rate service. -/
theorem getRate_fail_open_witness :
    getRate (some "usd") ExtCall.failure = 1 ∧
    (listPlans (some "eur") ExtCall.failure
      { users := [], plans := [], services := [], announcements := [],
        work := [], subscriptions := [] }).rate = 1 :=
  ⟨getRate_fail_open.2.2.1 "usd" ExtCall.failure (by decide),
   getRate_fail_open.2.2.2.2 (some "eur") _⟩

/-- C10: for a non-base target currency, when the external service
responds successfully but its `rates` object has no entry for the
uppercased target, or carries the rate 0, `getRate` returns 1 rather
than the absent or zero value (`... || 1`). -/
theorem getRate_absent_or_zero_entry (tc : String) (rates : String → Option ℚ) :
    (tc ≠ "" → toUpperStr tc ≠ BASE_CURRENCY → rates (toUpperStr tc) = none →
      getRate (some tc) (ExtCall.success (some rates)) = 1) ∧
    (tc ≠ "" → toUpperStr tc ≠ BASE_CURRENCY → rates (toUpperStr tc) = some 0 →
      getRate (some tc) (ExtCall.success (some rates)) = 1) := by
  constructor <;> intro h1 h2 h3 <;> unfold getRate <;> simp [h1, h2, h3]

/-- Witness for C10: target EUR, a response with no EUR entry and a
response carrying rate 0. -/
theorem getRate_absent_or_zero_entry_witness :
    getRate (some "EUR") (ExtCall.success (some (fun _ => none))) = 1 ∧
    getRate (some "EUR") (ExtCall.success (some (fun _ => some 0))) = 1 :=
  ⟨(getRate_absent_or_zero_entry "EUR" (fun _ => none)).1 (by decide) (by decide) rfl,
   (getRate_absent_or_zero_entry "EUR" (fun _ => some 0)).2 (by decide) (by decide) rfl⟩

/-- C1: when `userId`, `serviceId` and `planId` are all present
(non-falsy), `/subscribe` appends exactly one subscription row, and that
row references the service (`plan_id` stays NULL: the planId is silently
ignored); and the response is the 400 validation response exactly when
`userId` is falsy or both `serviceId` and `planId` are falsy, in which
case the store is untouched. -/
theorem subscribe_service_precedence (userId serviceId planId : JVal) (st : State) :
    (userId.truthy → serviceId.truthy → planId.truthy →
      subscribe userId serviceId planId st =
        (SimpleResp.ok "Subscribed to service",
         { st with subscriptions := st.subscriptions ++
            [{ user_id := userId, service_id := some serviceId, plan_id := none }] })) ∧
    ((subscribe userId serviceId planId st).1 =
        SimpleResp.badRequest "userId and serviceId or planId required" ↔
      (userId.truthy = false ∨ (serviceId.truthy = false ∧ planId.truthy = false))) ∧
    ((userId.truthy = false ∨ (serviceId.truthy = false ∧ planId.truthy = false)) →
      (subscribe userId serviceId planId st).2 = st) := by
  refine ⟨?_, ?_, ?_⟩ <;>
    cases hu : userId.truthy <;> cases hs : serviceId.truthy <;>
      cases hp : planId.truthy <;> simp [subscribe, hu, hs, hp]

/-- Witness for C1: the spec scenario `{userId:5, serviceId:2, planId:9}`
against an empty store. -/
theorem subscribe_service_precedence_witness :
    subscribe (JVal.vNum 5) (JVal.vNum 2) (JVal.vNum 9)
        { users := [], plans := [], services := [], announcements := [],
          work := [], subscriptions := [] } =
      (SimpleResp.ok "Subscribed to service",
       { users := [], plans := [], services := [], announcements := [],
         work := [],
         subscriptions := [{ user_id := JVal.vNum 5,
                             service_id := some (JVal.vNum 2),
                             plan_id := none }] }) :=
  (subscribe_service_precedence (JVal.vNum 5) (JVal.vNum 2) (JVal.vNum 9)
    { users := [], plans := [], services := [], announcements := [],
      work := [], subscriptions := [] }).1 (by decide) (by decide) (by decide)

/-- C9: when `adminId`, `name` and `duration` are present but `price` is
the number 0 — or `price` is present and `duration` is 0 — the
truthiness-based required-field check of `POST /api/plans` treats the 0
as missing: the response is the 400 validation error and no plan row is
inserted. -/
theorem createPlan_zero_is_missing (adminId name description price duration : JVal)
    (now : ℕ) (st : State) :
    (adminId.truthy → name.truthy → duration.truthy →
      createPlan adminId name description (JVal.vNum 0) duration now st =
        (PlanCreateResp.badRequest "adminId, name, price and duration are required", st)) ∧
    (adminId.truthy → name.truthy → price.truthy →
      createPlan adminId name description price (JVal.vNum 0) now st =
        (PlanCreateResp.badRequest "adminId, name, price and duration are required", st)) := by
  constructor <;> intro h1 h2 h3 <;> simp [createPlan, h1, h2, h3, JVal.truthy]

/-- Witness for C9: a fully-populated create-plan request whose price is
the number 0 (and one whose duration is 0). -/
theorem createPlan_zero_is_missing_witness :
    createPlan (JVal.vNum 1) (JVal.vStr "Gold") (JVal.vStr "") (JVal.vNum 0)
        (JVal.vNum 30) 7
        { users := [], plans := [], services := [], announcements := [],
          work := [], subscriptions := [] } =
      (PlanCreateResp.badRequest "adminId, name, price and duration are required",
       { users := [], plans := [], services := [], announcements := [],
         work := [], subscriptions := [] }) :=
  (createPlan_zero_is_missing (JVal.vNum 1) (JVal.vStr "Gold") (JVal.vStr "")
    (JVal.vNum 100) (JVal.vNum 30) 7
    { users := [], plans := [], services := [], announcements := [],
      work := [], subscriptions := [] }).1 (by decide) (by decide) (by decide)

/-- C4: `POST /register` — with any required field missing (falsy) the
response is the 400 validation error and no user row is inserted; with
all fields present and the email already in the store, the response is
the 400 duplicate-email error regardless of the other field values;
otherwise exactly one user row is appended whose password field is the
bcrypt digest, and the response is the bare 201 success (a constructor
carrying no session and no token).  The last conjunct states the
plain-text-freedom: after any call, every stored row either predates the
call or does not hold the raw password (given that the digest differs
from it, which bcrypt guarantees). -/
theorem register_spec (hash : JVal → String) (name email password accountType : JVal)
    (st : State) :
    ((name.truthy && email.truthy && password.truthy && accountType.truthy) = false →
      register hash name email password accountType st =
        (RegisterResp.badRequest "All fields are required", st)) ∧
    (name.truthy → email.truthy → password.truthy → accountType.truthy →
      (∃ u ∈ st.users, u.email = email) →
      register hash name email password accountType st =
        (RegisterResp.badRequest "Email already registered", st)) ∧
    (name.truthy → email.truthy → password.truthy → accountType.truthy →
      (∀ u ∈ st.users, u.email ≠ email) →
      register hash name email password accountType st =
        (RegisterResp.created,
         { st with users := st.users ++
            [{ id := st.users.length, name := name, email := email,
               password := hash password, account_type := accountType,
               verified := 0, subscription_expires_at := none }] })) ∧
    (∀ s, password = JVal.vStr s → hash password ≠ s →
      ∀ u ∈ (register hash name email password accountType st).2.users,
        u ∈ st.users ∨ u.password ≠ s) := by
  refine ⟨?_, ?_, ?_, ?_⟩
  · intro h
    have hcond : (!name.truthy || !email.truthy || !password.truthy ||
        !accountType.truthy) = true := by
      revert h
      cases name.truthy <;> cases email.truthy <;> cases password.truthy <;>
        cases accountType.truthy <;> simp
    simp [register, hcond]
  · intro hn he hp ha hex
    have hdup : st.users.any (fun u => decide (u.email = email)) = true := by
      simp only [List.any_eq_true, decide_eq_true_eq]
      exact hex
    simp [register, hn, he, hp, ha, hdup]
  · intro hn he hp ha hnone
    have hdup : st.users.any (fun u => decide (u.email = email)) = false := by
      simp only [List.any_eq_false, decide_eq_true_eq]
      exact hnone
    simp [register, hn, he, hp, ha, hdup]
  · intro s hps hne u hu
    unfold register at hu
    split_ifs at hu
    · exact Or.inl hu
    · exact Or.inl hu
    · simp only [List.mem_append, List.mem_singleton] at hu
      cases hu with
      | inl h => exact Or.inl h
      | inr h =>
        right
        rw [h]
        exact hne

/-- Witness for C4: a fresh registration against an empty store. -/
theorem register_spec_witness :
    register (fun _ => "digest") (JVal.vStr "Alice") (JVal.vStr "a@b.c")
        (JVal.vStr "pw") (JVal.vStr "admin")
        { users := [], plans := [], services := [], announcements := [],
          work := [], subscriptions := [] } =
      (RegisterResp.created,
       { users := [{ id := 0, name := JVal.vStr "Alice",
                     email := JVal.vStr "a@b.c", password := "digest",
                     account_type := JVal.vStr "admin", verified := 0,
                     subscription_expires_at := none }],
         plans := [], services := [], announcements := [],
         work := [], subscriptions := [] }) :=
  (register_spec (fun _ => "digest") (JVal.vStr "Alice") (JVal.vStr "a@b.c")
    (JVal.vStr "pw") (JVal.vStr "admin")
    { users := [], plans := [], services := [], announcements := [],
      work := [], subscriptions := [] }).2.2.1
    (by decide) (by decide) (by decide) (by decide) (by simp)

/-- C5: two login attempts with both fields present, one with an email
absent from the store and one with a stored email but a failing hash
comparison, draw the identical response: the same 401 constructor with
the same generic message, so the response reveals nothing about which
check failed. -/
theorem login_failure_symmetry (cmp : JVal → String → Bool) (e1 p1 e2 p2 : JVal)
    (st : State)
    (he1 : e1.truthy) (hp1 : p1.truthy) (he2 : e2.truthy) (hp2 : p2.truthy)
    (habsent : findUserByEmail st e1 = none)
    (u : UserRow) (hfound : findUserByEmail st e2 = some u)
    (hcmp : cmp p2 u.password = false) :
    login cmp e1 p1 st = LoginResp.unauthorized "Invalid credentials" ∧
    login cmp e2 p2 st = LoginResp.unauthorized "Invalid credentials" ∧
    login cmp e1 p1 st = login cmp e2 p2 st := by
  have h1 : login cmp e1 p1 st = LoginResp.unauthorized "Invalid credentials" := by
    simp [login, he1, hp1, habsent]
  have h2 : login cmp e2 p2 st = LoginResp.unauthorized "Invalid credentials" := by
    simp [login, he2, hp2, hfound, hcmp]
  exact ⟨h1, h2, h1.trans h2.symm⟩

/-- Witness for C5: a store holding one user; an unknown email versus the
stored email with a comparison that fails. -/
theorem login_failure_symmetry_witness :
    login (fun _ _ => false) (JVal.vStr "no@x.y") (JVal.vStr "pw1")
        { users := [{ id := 0, name := JVal.vStr "Alice",
                      email := JVal.vStr "a@b.c", password := "digest",
                      account_type := JVal.vStr "admin", verified := 0,
                      subscription_expires_at := none }],
          plans := [], services := [], announcements := [],
          work := [], subscriptions := [] } =
      LoginResp.unauthorized "Invalid credentials" ∧
    login (fun _ _ => false) (JVal.vStr "a@b.c") (JVal.vStr "pw2")
        { users := [{ id := 0, name := JVal.vStr "Alice",
                      email := JVal.vStr "a@b.c", password := "digest",
                      account_type := JVal.vStr "admin", verified := 0,
                      subscription_expires_at := none }],
          plans := [], services := [], announcements := [],
          work := [], subscriptions := [] } =
      LoginResp.unauthorized "Invalid credentials" := by
  have h := login_failure_symmetry (fun _ _ => false)
    (JVal.vStr "no@x.y") (JVal.vStr "pw1") (JVal.vStr "a@b.c") (JVal.vStr "pw2")
    { users := [{ id := 0, name := JVal.vStr "Alice",
                  email := JVal.vStr "a@b.c", password := "digest",
                  account_type := JVal.vStr "admin", verified := 0,
                  subscription_expires_at := none }],
      plans := [], services := [], announcements := [],
      work := [], subscriptions := [] }
    (by decide) (by decide) (by decide) (by decide) (by decide)
    { id := 0, name := JVal.vStr "Alice", email := JVal.vStr "a@b.c",
      password := "digest", account_type := JVal.vStr "admin", verified := 0,
      subscription_expires_at := none }
    (by decide) rfl
  exact ⟨h.1, h.2.1⟩

/-- C6: `POST /api/work` with title, description and adminId present —
with a file attached, the stored `file_path` is exactly the generated
filename: the ingestion timestamp, a hyphen, and the original filename
with every run of whitespace replaced by a single underscore (no
directory part); with no file, the stored `file_path` is NULL; with a
required field missing, the response is the 400 validation error and
nothing is stored. -/
theorem uploadWork_spec (title description adminId : JVal)
    (file : Option FileUpload) (now : ℕ) (st : State) :
    (title.truthy → description.truthy → adminId.truthy →
      ∀ f, file = some f →
        uploadWork title description adminId file now st =
          (SimpleResp.ok "Work uploaded",
           { st with work := st.work ++
              [{ id := st.work.length, title := title,
                 description := description,
                 file_path := some (toString now ++ "-" ++ sanitizeWS f.originalname),
                 admin_id := adminId, created_at := now }] })) ∧
    (title.truthy → description.truthy → adminId.truthy → file = none →
      uploadWork title description adminId file now st =
        (SimpleResp.ok "Work uploaded",
         { st with work := st.work ++
            [{ id := st.work.length, title := title,
               description := description, file_path := none,
               admin_id := adminId, created_at := now }] })) ∧
    ((title.truthy && description.truthy && adminId.truthy) = false →
      uploadWork title description adminId file now st =
        (SimpleResp.badRequest "title, description and adminId required", st)) := by
  refine ⟨?_, ?_, ?_⟩
  · intro ht hd ha f hf
    subst hf
    simp [uploadWork, ht, hd, ha, genFilename]
  · intro ht hd ha hf
    subst hf
    simp [uploadWork, ht, hd, ha]
  · intro h
    have hcond : (!title.truthy || !description.truthy || !adminId.truthy) = true := by
      revert h
      cases title.truthy <;> cases description.truthy <;> cases adminId.truthy <;> simp
    simp [uploadWork, hcond]

/-- Witness for C6: the spec scenario — a file named `my file.txt`
uploaded at timestamp 123 is stored as `123-my_file.txt`. -/
theorem uploadWork_spec_witness :
    uploadWork (JVal.vStr "t") (JVal.vStr "d") (JVal.vNum 1)
        (some { originalname := "my file.txt" }) 123
        { users := [], plans := [], services := [], announcements := [],
          work := [], subscriptions := [] } =
      (SimpleResp.ok "Work uploaded",
       { users := [], plans := [], services := [], announcements := [],
         work := [{ id := 0, title := JVal.vStr "t",
                    description := JVal.vStr "d",
                    file_path := some "123-my_file.txt",
                    admin_id := JVal.vNum 1, created_at := 123 }],
         subscriptions := [] }) :=
  (uploadWork_spec (JVal.vStr "t") (JVal.vStr "d") (JVal.vNum 1)
    (some { originalname := "my file.txt" }) 123
    { users := [], plans := [], services := [], announcements := [],
      work := [], subscriptions := [] }).1
    (by decide) (by decide) (by decide) { originalname := "my file.txt" } rfl

/-- C7: for every fixed store state, the legacy `GET /services` response
equals the rich `GET /api/services` response with each row projected to
`id`, `service`, `level`, `admin_id` (dropping `admin_name` and
`created_at`), rows in the same newest-first order; and the legacy
`GET /announcements` response equals the rich `GET /api/announcements`
response with each row projected to `id`, `title`, `content`,
`created_at` (dropping `admin_name`). -/
theorem legacy_listings_are_projections (st : State) :
    listServicesLegacy st =
      (listServicesRich st).map (fun r =>
        { id := r.id, service := r.service, level := r.level,
          admin_id := r.admin_id }) ∧
    listAnnouncementsLegacy st =
      (listAnnouncementsRich st).map (fun r =>
        { id := r.id, title := r.title, content := r.content,
          created_at := r.created_at }) := by
  constructor
  · unfold listServicesLegacy listServicesRich
    rw [List.map_map]
    rfl
  · unfold listAnnouncementsLegacy listAnnouncementsRich
    rw [List.map_map]
    rfl

/-- A state extends itself. -/
lemma insertOnly_self (st : State) : InsertOnly st st :=
  ⟨[], [], [], [], [], [], by simp⟩

/-- Appending user rows is an insert-only change. -/
lemma insertOnly_users (st : State) (l : List UserRow) :
    InsertOnly st { st with users := st.users ++ l } :=
  ⟨l, [], [], [], [], [], by simp⟩

/-- Appending plan rows is an insert-only change. -/
lemma insertOnly_plans (st : State) (l : List PlanRow) :
    InsertOnly st { st with plans := st.plans ++ l } :=
  ⟨[], l, [], [], [], [], by simp⟩

/-- Appending service rows is an insert-only change. -/
lemma insertOnly_services (st : State) (l : List ServiceRow) :
    InsertOnly st { st with services := st.services ++ l } :=
  ⟨[], [], l, [], [], [], by simp⟩

/-- Appending announcement rows is an insert-only change. -/
lemma insertOnly_announcements (st : State) (l : List AnnouncementRow) :
    InsertOnly st { st with announcements := st.announcements ++ l } :=
  ⟨[], [], [], l, [], [], by simp⟩

/-- Appending work rows is an insert-only change. -/
lemma insertOnly_work (st : State) (l : List WorkRow) :
    InsertOnly st { st with work := st.work ++ l } :=
  ⟨[], [], [], [], l, [], by simp⟩

/-- Appending subscription rows is an insert-only change. -/
lemma insertOnly_subscriptions (st : State) (l : List SubscriptionRow) :
    InsertOnly st { st with subscriptions := st.subscriptions ++ l } :=
  ⟨[], [], [], [], [], l, by simp⟩

/-- C8: no request of the HTTP surface modifies or deletes an existing
record — for every endpoint and every store state, each table after the
request is the table before with zero or more rows appended, so every
pre-existing row of users, plans, services, announcements, work and
subscriptions is present and unchanged afterwards. -/
theorem http_surface_insert_only (r : Req) (st : State) :
    InsertOnly st (step r st) := by
  cases r with
  | register h n e p a =>
    simp only [step, register]
    split_ifs <;> first | exact insertOnly_self st | exact insertOnly_users st _
  | login cmp e p => exact insertOnly_self st
  | createPlan a n d p du now =>
    simp only [step, createPlan]
    split_ifs <;> first | exact insertOnly_self st | exact insertOnly_plans st _
  | listPlans cq ext => exact insertOnly_self st
  | subscribe u s p =>
    simp only [step, subscribe]
    split_ifs <;>
      first | exact insertOnly_self st | exact insertOnly_subscriptions st _
  | createService s l a now =>
    simp only [step, createService]
    split_ifs <;> first | exact insertOnly_self st | exact insertOnly_services st _
  | listServices => exact insertOnly_self st
  | listServicesLegacy => exact insertOnly_self st
  | createAnnouncement t c a now =>
    simp only [step, createAnnouncement]
    split_ifs <;>
      first | exact insertOnly_self st | exact insertOnly_announcements st _
  | listAnnouncements => exact insertOnly_self st
  | listAnnouncementsLegacy => exact insertOnly_self st
  | uploadWork t d a f now =>
    simp only [step, uploadWork]
    split_ifs <;> first | exact insertOnly_self st | exact insertOnly_work st _
  | listWork => exact insertOnly_self st

/-- The effective currency is the base currency whenever the query is
absent, empty, or uppercases to the base currency. -/
lemma effCurrency_of_base (cq : Option String)
    (h : cq = none ∨ cq = some "" ∨
      ∃ s, cq = some s ∧ toUpperStr s = BASE_CURRENCY) :
    effCurrency cq = BASE_CURRENCY := by
  rcases h with h | h | ⟨s, rfl, hs⟩
  · subst h; decide
  · subst h; decide
  · by_cases hse : s = ""
    · subst hse; exact absurd hs (by decide)
    · simp [effCurrency, hse, hs]

/-- C3: in every plan listing that requests the base currency (no
currency, empty currency, or one that uppercases to USD), the returned
rate is 1 and each listed plan's `price_local` equals its `price_usd`
rounded to two decimals; and in every plan listing whatsoever each
plan's `price_local` equals its reported `price_usd` times the returned
rate, rounded to two decimals. -/
theorem listPlans_price_conversion :
    (∀ (cq : Option String) (ext : ExtCall) (st : State),
      (cq = none ∨ cq = some "" ∨
        ∃ s, cq = some s ∧ toUpperStr s = BASE_CURRENCY) →
      (listPlans cq ext st).rate = 1 ∧
      ∀ p ∈ (listPlans cq ext st).plans,
        p.price_local = toFixed2 p.price_usd) ∧
    (∀ (cq : Option String) (ext : ExtCall) (st : State),
      ∀ p ∈ (listPlans cq ext st).plans,
        p.price_local = toFixed2 (p.price_usd * (listPlans cq ext st).rate)) := by
  have hgen : ∀ (cq : Option String) (ext : ExtCall) (st : State),
      ∀ p ∈ (listPlans cq ext st).plans,
        p.price_local = toFixed2 (p.price_usd * (listPlans cq ext st).rate) := by
    intro cq ext st p hp
    simp only [listPlans, List.mem_map] at hp
    obtain ⟨a, _, rfl⟩ := hp
    rfl
  refine ⟨fun cq ext st h => ?_, hgen⟩
  have hrate : (listPlans cq ext st).rate = 1 := by
    show getRate (some (effCurrency cq)) ext = 1
    rw [effCurrency_of_base cq h]
    exact getRate_of_base _ _ (by decide)
  refine ⟨hrate, fun p hp => ?_⟩
  have := hgen cq ext st p hp
  rwa [hrate, mul_one] at this

/-- Witness for C3: the spec scenario — one active plan with
`price_usd` 100 listed with no currency parameter gives rate 1 and a
local price equal to the rounded USD price. -/
theorem listPlans_price_conversion_witness :
    (listPlans none ExtCall.failure
      { users := [], services := [], announcements := [], work := [],
        subscriptions := [],
        plans := [{ id := 0, admin_id := JVal.vNum 1,
                    name := JVal.vStr "Gold", description := JVal.vStr "",
                    price_usd := JVal.vNum 100,
                    duration_days := JVal.vNum 30, active := true,
                    created_at := 5 }] }).rate = 1 ∧
    (100 : ℚ) = toFixed2 100 := by
  have h := listPlans_price_conversion.1 none ExtCall.failure
    { users := [], services := [], announcements := [], work := [],
      subscriptions := [],
      plans := [{ id := 0, admin_id := JVal.vNum 1,
                  name := JVal.vStr "Gold", description := JVal.vStr "",
                  price_usd := JVal.vNum 100,
                  duration_days := JVal.vNum 30, active := true,
                  created_at := 5 }] } (Or.inl rfl)
  have hc : effCurrency none = "USD" := by decide
  have hmem : ({ id := 0, admin_id := JVal.vNum 1, admin_name := none,
                 name := JVal.vStr "Gold", description := JVal.vStr "",
                 price_usd := 100, duration_days := JVal.vNum 30,
                 currency := "USD",
                 price_local := 100, created_at := 5 } : PlanOut) ∈
      (listPlans none ExtCall.failure
        { users := [], services := [], announcements := [], work := [],
          subscriptions := [],
          plans := [{ id := 0, admin_id := JVal.vNum 1,
                      name := JVal.vStr "Gold", description := JVal.vStr "",
                      price_usd := JVal.vNum 100,
                      duration_days := JVal.vNum 30, active := true,
                      created_at := 5 }] }).plans := by
    simp only [listPlans, hc, getRate_of_failure, List.filter, sortByDesc,
      insertByDesc, adminName, List.find?, List.map, List.mem_singleton]
    norm_num [JVal.toNum, toFixed2]
  exact ⟨h.1, h.2 _ hmem⟩

end LegitCity
